import Mathlib

/-!
Verification of the spatial-showcase WebXR gallery code.

Shallow embedding of:
  * `src/utils/galleryContent.js` — `bindGalleryContent`, `bindPanelContent`,
    `createSlideshow`, `stopSlideshow`;
  * `src/scenes/GalleryScene.js` — `renderPanels`, `renderTeleports`;
  * `src/scenes/BaseScene.js` — `trackEntity`, `dispose`.

JavaScript strings are modelled as `List Char`; the host engine's
per-frame document store is modelled as a function from the attempt
number to the (optional) document visible on that frame.
-/

namespace Showcase

/-- Outcome of a readiness-polling loop: either the document became
available and binding proceeded with it, or the attempts were exhausted,
in which case the source logs a warning and returns `undefined`
(no error is propagated to the caller). -/
inductive PollOutcome (α : Type) where
  | bound (d : α)
  | exhaustedWithWarning
  deriving DecidableEq, Repr

/-- `bindGalleryContent.attemptBinding` (galleryContent.js lines 30–40),
restricted to its document-readiness loop (the entity index is assumed
valid, as in the claim's scenario where only the document stays absent).
`doc n` is what `PanelDocument.data.document[entity.index]` returns on
the n-th attempt.  Returns the outcome together with the number of times
the readiness check (the document lookup) was invoked. -/
def attemptBinding (doc : Nat → Option α) (maxAttempts : Nat) (attempt : Nat) :
    PollOutcome α × Nat :=
  match doc attempt with
  | some d => (.bound d, 1)
  | none =>
    if attempt < maxAttempts then
      let r := attemptBinding doc maxAttempts (attempt + 1)
      (r.1, r.2 + 1)
    else
      (.exhaustedWithWarning, 1)
termination_by maxAttempts + 1 - attempt
decreasing_by omega

/-- `createSlideshow.attemptSetup` (galleryContent.js lines 392–401),
restricted to its document-readiness loop, which has the same shape:
check the document store, reschedule on the next frame while
`attempt < maxAttempts`, otherwise log a warning and stop. -/
def attemptSetup (doc : Nat → Option α) (maxAttempts : Nat) (attempt : Nat) :
    PollOutcome α × Nat :=
  match doc attempt with
  | some d => (.bound d, 1)
  | none =>
    if attempt < maxAttempts then
      let r := attemptSetup doc maxAttempts (attempt + 1)
      (r.1, r.2 + 1)
    else
      (.exhaustedWithWarning, 1)
termination_by maxAttempts + 1 - attempt
decreasing_by omega

/-- GalleryScene.renderPanels lines 89–95: normalise the panel's
thumbnail input to the list bound to the gallery panel.  `thumbnails`
is `panel.thumbnails || panel.images || []`; `image` is `panel.image`. -/
def thumbnailList (thumbnails : List (List Char)) (image : Option (List Char)) :
    List (List Char) :=
  if thumbnails.length ≥ 4 then
    thumbnails.take 4
  else if thumbnails.length > 0 then
    thumbnails ++ List.replicate (4 - thumbnails.length) (thumbnails.headD [])
  else
    match image with
    | some img => [img, img, img, img]
    | none => []

/-- galleryContent.js line 93: `content.thumbnails.slice(0, 4)` inside
`bindGalleryContent.attemptBinding`, applied to the list it receives. -/
def bindThumbnails (thumbnails : List (List Char)) : List (List Char) :=
  thumbnails.take 4

/-- galleryContent.js lines 76–78 (`bindGalleryContent`): the description
text actually assigned to the element.  `substring(0, 50) + "..."` when
the description is longer than 50 characters, otherwise unchanged. -/
def shortDescription (d : List Char) : List Char :=
  if d.length > 50 then d.take 50 ++ ['.', '.', '.'] else d

/-- galleryContent.js line 311 (`bindPanelContent`): the description text
assigned to the `panel-description` element — `content.description`
itself, with no truncation. -/
def panelBoundDescription (d : List Char) : List Char := d

/-- A thumbnail element's click-listener state: the ordered list of
attached click handlers (each identified by a number, since every bind
creates a fresh closure) and the private `__thumbnailClickHandler`
marker the binder stores on the element. -/
structure ThumbElem where
  clickHandlers : List Nat
  marker : Option Nat
  deriving DecidableEq, Repr

/-- A freshly created thumbnail element: no click handlers, no marker. -/
def pristineThumb : ThumbElem := ⟨[], none⟩

/-- galleryContent.js lines 169–205: the click-handler part of
`bindGalleryContent.attemptBinding` on an element that supports
`addEventListener`/`removeEventListener`.  If the private marker holds a
previously attached handler, `removeEventListener("click", …)` removes
it; then the fresh handler `newId` is attached with `addEventListener`
and stored in the marker. -/
def bindClick (e : ThumbElem) (newId : Nat) : ThumbElem :=
  let e1 :=
    match e.marker with
    | some h => { e with clickHandlers := e.clickHandlers.erase h }
    | none => e
  { clickHandlers := e1.clickHandlers ++ [newId], marker := some newId }

/-- Number of handler invocations a single click dispatch produces:
each attached listener fires once. -/
def dispatchClickCount (e : ThumbElem) : Nat := e.clickHandlers.length

/-- An image-bearing element together with the capability surface the
binder probes: whether it has a structured `setProperties` call (and
whether that call throws), a direct `src` property (`src !== undefined`),
and a `setAttribute` method.  The three `Option` fields record what each
mechanism was last asked to store. -/
structure ImgElem where
  hasSetProperties : Bool
  setPropertiesThrows : Bool
  hasSrc : Bool
  hasSetAttribute : Bool
  propsSrc : Option (List Char)
  srcVal : Option (List Char)
  attrSrc : Option (List Char)
  deriving DecidableEq, Repr

/-- Which assignment mechanism ended up setting the image. -/
inductive ImgMech where
  | structured
  | direct
  | attribute
  | unset
  deriving DecidableEq, Repr

/-- galleryContent.js lines 141–158: the thumbnail image-setting probe
chain of `bindGalleryContent.attemptBinding`.  `setProperties` is tried
first inside a try/catch (a throw leaves `imageSet` false); if the image
is still unset and the element has a `src` property it is assigned
directly; failing that, `setAttribute("src", …)` is used.  No exception
escapes: the only throwing step is caught. -/
def setThumbnailImage (e : ImgElem) (src : List Char) : ImgElem × ImgMech :=
  let probe :=
    if e.hasSetProperties then
      if e.setPropertiesThrows then (e, false)
      else ({ e with propsSrc := some src }, true)
    else (e, false)
  let e1 := probe.1
  if probe.2 then (e1, .structured)
  else if e1.hasSrc then ({ e1 with srcVal := some src }, .direct)
  else if e1.hasSetAttribute then ({ e1 with attrSrc := some src }, .attribute)
  else (e1, .unset)

/-- galleryContent.js lines 340–345: the image-setting step of
`bindPanelContent.attemptBinding`.  Only `setProperties` is used; when
the element lacks it, the code logs a warning and assigns nothing — there
is no direct-property or attribute fallback here.  The Bool records
whether anything was assigned. -/
def setPanelImage (e : ImgElem) (src : List Char) : ImgElem × Bool :=
  if e.hasSetProperties then ({ e with propsSrc := some src }, true)
  else (e, false)

/-- A concrete mock element exposing only a raw `src` setter: no
structured `setProperties`, no `setAttribute`. -/
def srcOnlyElem : ImgElem :=
  { hasSetProperties := false
    setPropertiesThrows := false
    hasSrc := true
    hasSetAttribute := false
    propsSrc := none
    srcVal := none
    attrSrc := none }

/-- createSlideshow (galleryContent.js lines 424–431 and 436–479): the
state machine driving the slideshow once setup has succeeded.
`slideshowRun images k` returns the circular index `currentIndex` and the
sequence of sources handed to `updateImage` (hence assigned to the
element) after `k` timer firings: setup first calls
`updateImage(images[0])`, then each firing advances
`currentIndex = (currentIndex + 1) % images.length` and calls
`updateImage(images[currentIndex])`.  The timer period `interval` only
spaces the firings in time and does not affect the sequence. -/
def slideshowRun (images : List (List Char)) : Nat → Nat × List (List Char)
  | 0 => (0, [images.headD []])
  | k + 1 =>
    let s := slideshowRun images k
    let i := (s.1 + 1) % images.length
    (i, s.2 ++ [images.getD i []])

/-- A tracked entity's render object (three.js `Object3D`), as far as
`BaseScene.dispose` touches it: its parent in the scene graph
(identified by a number, the world scene being `worldSceneId`), how many
times it has been detached from a parent, and whether it exposes and has
run a `dispose()` resource-release method. -/
structure Object3D where
  parent : Option Nat
  detachCount : Nat
  hasDisposeMethod : Bool
  resourcesDisposed : Bool
  deriving DecidableEq, Repr

/-- A tracked entity: the optional back-reference to its render object
and its `destroy` hook state. -/
structure SEntity where
  object3D : Option Object3D
  hasDestroyMethod : Bool
  destroyCalled : Bool
  deriving DecidableEq, Repr

/-- A scene instance: the world scene-graph root's identity and the
tracked-entity list maintained by `trackEntity`. -/
structure Scene where
  worldSceneId : Nat
  entities : List SEntity
  deriving DecidableEq, Repr

/-- BaseScene.js lines 35–40: `trackEntity` appends to the tracked list. -/
def trackEntity (sc : Scene) (e : SEntity) : Scene :=
  { sc with entities := sc.entities ++ [e] }

/-- BaseScene.js lines 52–70, per render object:
`entity.object3D.parent.remove(entity.object3D)` when a parent exists,
then `this.world.scene.remove(entity.object3D)` (which only detaches if
the object is still a child of the world scene), then
`entity.object3D.dispose()` when that method exists. -/
def disposeObject3D (sceneId : Nat) (o : Object3D) : Object3D :=
  let o1 :=
    match o.parent with
    | some _ => { o with parent := none, detachCount := o.detachCount + 1 }
    | none => o
  let o2 :=
    if o1.parent = some sceneId then
      { o1 with parent := none, detachCount := o1.detachCount + 1 }
    else o1
  if o2.hasDisposeMethod then { o2 with resourcesDisposed := true } else o2

/-- BaseScene.js lines 48–76, per tracked entity: clean up the render
object if present, null the `object3D` back-reference, then call
`entity.destroy()` if the entity exposes it.  The second component
returns the render object's final state (which outlives the nulled
back-reference), so the post-conditions remain observable. -/
def disposeEntity (sceneId : Nat) (e : SEntity) : SEntity × Option Object3D :=
  match e.object3D with
  | some o =>
    let o2 := disposeObject3D sceneId o
    let e1 : SEntity := { e with object3D := none }
    (if e1.hasDestroyMethod then { e1 with destroyCalled := true } else e1, some o2)
  | none =>
    (if e.hasDestroyMethod then { e with destroyCalled := true } else e, none)

/-- BaseScene.js lines 45–80: `dispose()` iterates the tracked entities
and finally resets the list to `[]`.  Returns the disposed scene and the
per-entity outcomes in iteration order. -/
def disposeScene (sc : Scene) : Scene × List (SEntity × Option Object3D) :=
  ({ sc with entities := [] }, sc.entities.map (disposeEntity sc.worldSceneId))

/-- GalleryScene.renderPanels lines 70–72 and renderTeleports lines
132–137: `offsetStart = n > 1 ? -((n - 1) * spacing) / 2 : 0`, and item
`i` sits at `offsetStart + i * spacing`.  The arithmetic is exact here,
so it is modelled over `ℚ`. -/
def itemOffset (n : Nat) (s : ℚ) (i : Nat) : ℚ :=
  let offsetStart : ℚ := if 1 < n then -(((n : ℚ) - 1) * s) / 2 else 0
  offsetStart + (i : ℚ) * s

/-- The offsets of all `n` items laid out with spacing `s`. -/
def itemOffsets (n : Nat) (s : ℚ) : List ℚ :=
  (List.range n).map (itemOffset n s)

/-- The slideshow bookkeeping `createSlideshow`/`stopSlideshow` keep on
an entity: `cleanupStored = some hasTimer` models the
`entity.object3D.userData.slideshowCleanup` closure installed by
`createSlideshow` (lines 482–488), with `hasTimer` recording whether the
`slideshowInterval` handle it captured is non-null; `intervalRunning`
is whether the timer is still scheduled; `cleanupInvoked` counts how
often the closure has been called. -/
structure SlideshowEntity where
  cleanupStored : Option Bool
  intervalRunning : Bool
  cleanupInvoked : Nat
  deriving DecidableEq, Repr

/-- galleryContent.js lines 498–503: `stopSlideshow` invokes the stored
cleanup closure if present (the closure clears the interval when its
captured handle is non-null) and then `delete`s the stored reference;
with no stored closure it does nothing. -/
def stopSlideshow (e : SlideshowEntity) : SlideshowEntity :=
  match e.cleanupStored with
  | some hasTimer =>
    { e with
      cleanupInvoked := e.cleanupInvoked + 1
      intervalRunning := if hasTimer then false else e.intervalRunning
      cleanupStored := none }
  | none => e

/-- A panel record from the content table, as consumed by
GalleryScene.renderPanels. -/
structure PanelData where
  title : List Char
  description : Option (List Char)
  thumbnails : Option (List (List Char))
  images : Option (List (List Char))
  image : Option (List Char)
  deriving DecidableEq, Repr

/-- GalleryScene.renderPanels line 54: `panels.slice(0, 2)`. -/
def displayPanels (panels : List PanelData) : List PanelData :=
  panels.take 2

/-- The content bound to one created panel entity: title, description
(defaulted to empty), normalised thumbnail list, and x-offset. -/
structure BoundPanel where
  title : List Char
  description : List Char
  thumbnails : List (List Char)
  xOffset : ℚ
  deriving DecidableEq, Repr

/-- GalleryScene.renderPanels lines 53–107: limit to the first two
panels, then create one entity per displayed panel at offset
`itemOffset` (spacing 1.9) and bind its title, description
(`panel.description || ""`), and normalised thumbnails
(`panel.thumbnails || panel.images || []`, padded or truncated by
`thumbnailList`). -/
def renderPanels (panels : List PanelData) : List BoundPanel :=
  let dp := displayPanels panels
  dp.enum.map fun ip =>
    { title := ip.2.title
      description := ip.2.description.getD []
      thumbnails := thumbnailList (ip.2.thumbnails.getD (ip.2.images.getD [])) ip.2.image
      xOffset := itemOffset dp.length (19 / 10) ip.1 }

end Showcase

namespace Showcase

/-- Unfolded form of `attemptBinding` on a never-ready document store. -/
theorem attemptBinding_never_ready (doc : Nat → Option α)
    (h : ∀ n, doc n = none) (maxAttempts : Nat) :
    ∀ k attempt, maxAttempts - attempt = k → attempt ≤ maxAttempts →
      attemptBinding doc maxAttempts attempt =
        (.exhaustedWithWarning, maxAttempts + 1 - attempt) := by
  intro k
  induction k with
  | zero =>
    intro attempt hk hle
    have ha : attempt = maxAttempts := by omega
    rw [attemptBinding, h attempt]
    simp [ha]
  | succ n ih =>
    intro attempt hk hle
    have hlt : attempt < maxAttempts := by omega
    rw [attemptBinding, h attempt]
    simp only [hlt, if_pos]
    rw [ih (attempt + 1) (by omega) (by omega)]
    simp
    omega

/-- Unfolded form of `attemptSetup` on a never-ready document store. -/
theorem attemptSetup_never_ready (doc : Nat → Option α)
    (h : ∀ n, doc n = none) (maxAttempts : Nat) :
    ∀ k attempt, maxAttempts - attempt = k → attempt ≤ maxAttempts →
      attemptSetup doc maxAttempts attempt =
        (.exhaustedWithWarning, maxAttempts + 1 - attempt) := by
  intro k
  induction k with
  | zero =>
    intro attempt hk hle
    have ha : attempt = maxAttempts := by omega
    rw [attemptSetup, h attempt]
    simp [ha]
  | succ n ih =>
    intro attempt hk hle
    have hlt : attempt < maxAttempts := by omega
    rw [attemptSetup, h attempt]
    simp only [hlt, if_pos]
    rw [ih (attempt + 1) (by omega) (by omega)]
    simp
    omega

/-- C1: for a readiness check that never succeeds (the document stays
absent), both the binding loop (`bindGalleryContent.attemptBinding`) and
the slideshow loop (`createSlideshow.attemptSetup`), started at attempt 0
with bound `maxAttempts`, invoke the readiness check at most
`maxAttempts + 1` times, then stop scheduling further attempts, ending in
the warn-and-return outcome that propagates no error to the caller. -/
theorem retry_bound (doc : Nat → Option α) (h : ∀ n, doc n = none)
    (maxAttempts : Nat) :
    (attemptBinding doc maxAttempts 0).2 ≤ maxAttempts + 1 ∧
    (attemptBinding doc maxAttempts 0).1 = .exhaustedWithWarning ∧
    (attemptSetup doc maxAttempts 0).2 ≤ maxAttempts + 1 ∧
    (attemptSetup doc maxAttempts 0).1 = .exhaustedWithWarning := by
  have h1 := attemptBinding_never_ready doc h maxAttempts maxAttempts 0 (by omega) (by omega)
  have h2 := attemptSetup_never_ready doc h maxAttempts maxAttempts 0 (by omega) (by omega)
  rw [h1, h2]
  refine ⟨by omega, rfl, by omega, rfl⟩

/-- Witness for C1 at a concrete never-ready store and `maxAttempts = 3`. -/
theorem retry_bound_witness :
    (attemptBinding (fun _ => (none : Option Unit)) 3 0).2 ≤ 4 ∧
    (attemptBinding (fun _ => (none : Option Unit)) 3 0).1 = .exhaustedWithWarning ∧
    (attemptSetup (fun _ => (none : Option Unit)) 3 0).2 ≤ 4 ∧
    (attemptSetup (fun _ => (none : Option Unit)) 3 0).1 = .exhaustedWithWarning :=
  retry_bound (fun _ => none) (fun _ => rfl) 3

/-- C2: the thumbnail list handed to the element layer
(`bindThumbnails ∘ thumbnailList`) has exactly 4 entries for every
non-empty input (so in particular for input lengths 1, 2, 4 and 6) and
for an empty input with an `image`; a singleton `[a]` yields
`[a, a, a, a]`; an empty input with `image = b` yields `[b, b, b, b]`;
an input of length ≥ 4 (e.g. 6) yields its first 4 entries unchanged;
and a short input is padded by repeating its first entry. -/
theorem thumbnail_normalization (ts : List (List Char)) (img : Option (List Char)) :
    (1 ≤ ts.length → (bindThumbnails (thumbnailList ts img)).length = 4) ∧
    (∀ b, ts = [] → img = some b →
      bindThumbnails (thumbnailList ts img) = [b, b, b, b]) ∧
    (∀ a, ts = [a] → bindThumbnails (thumbnailList ts img) = [a, a, a, a]) ∧
    (4 ≤ ts.length → bindThumbnails (thumbnailList ts img) = ts.take 4) ∧
    (1 ≤ ts.length → ts.length < 4 →
      bindThumbnails (thumbnailList ts img) =
        ts ++ List.replicate (4 - ts.length) (ts.headD [])) := by
  have hpad : ts.length < 4 → 1 ≤ ts.length →
      bindThumbnails (thumbnailList ts img) =
        ts ++ List.replicate (4 - ts.length) (ts.headD []) := by
    intro hlt hpos
    rw [thumbnailList.eq_def, if_neg (by omega), if_pos (by omega), bindThumbnails]
    apply List.take_of_length_le
    simp
    omega
  have htrunc : 4 ≤ ts.length → bindThumbnails (thumbnailList ts img) = ts.take 4 := by
    intro hge
    rw [thumbnailList.eq_def, if_pos hge, bindThumbnails, List.take_take]
    norm_num
  refine ⟨?_, ?_, ?_, htrunc, fun h1 h2 => hpad h2 h1⟩
  · intro hpos
    rcases Nat.lt_or_ge ts.length 4 with hlt | hge
    · rw [hpad hlt hpos]
      simp
      omega
    · rw [htrunc hge]
      simp
      omega
  · intro b hts himg
    subst hts himg
    rfl
  · intro a hts
    subst hts
    rfl

/-- Witness for C2 at concrete inputs of length 1 and length 0 plus image. -/
theorem thumbnail_normalization_witness :
    bindThumbnails (thumbnailList [['a']] none) = [['a'], ['a'], ['a'], ['a']] ∧
    bindThumbnails (thumbnailList [] (some ['b'])) = [['b'], ['b'], ['b'], ['b']] ∧
    (bindThumbnails (thumbnailList [['a'], ['b']] none)).length = 4 :=
  ⟨(thumbnail_normalization [['a']] none).2.2.1 ['a'] rfl,
   (thumbnail_normalization [] (some ['b'])).2.1 ['b'] rfl rfl,
   (thumbnail_normalization [['a'], ['b']] none).1 (by decide)⟩

/-- C3 counterexample: `bindPanelContent` (galleryContent.js line 311)
binds a 51-character description unchanged — bound length 51, not 53 —
refuting the claim that every description bound to a panel is truncated
at length ≥ 51. -/
theorem description_truncation_cex :
    51 ≤ (List.replicate 51 'x').length ∧
    (panelBoundDescription (List.replicate 51 'x')).length = 51 ∧
    (panelBoundDescription (List.replicate 51 'x')).length ≠ 53 := by
  refine ⟨by decide, by decide, by decide⟩

/-- C3 (amended): in `bindGalleryContent`, a description of length ≤ 50
is bound unchanged and one of length ≥ 51 is truncated to its first 50
characters plus the 3-character ellipsis (bound length 53); in
`bindPanelContent`, the description is bound unchanged at any length. -/
theorem description_truncation (d : List Char) :
    (d.length ≤ 50 → shortDescription d = d) ∧
    (51 ≤ d.length →
      shortDescription d = d.take 50 ++ ['.', '.', '.'] ∧
      (shortDescription d).length = 53) ∧
    panelBoundDescription d = d := by
  refine ⟨?_, ?_, rfl⟩
  · intro hle
    rw [shortDescription, if_neg (by omega)]
  · intro hge
    have he : shortDescription d = d.take 50 ++ ['.', '.', '.'] := by
      rw [shortDescription, if_pos (by omega)]
    refine ⟨he, ?_⟩
    rw [he]
    simp
    omega

/-- Witness for C3's amended claim at a concrete 60-character description. -/
theorem description_truncation_witness :
    shortDescription (List.replicate 60 'x') =
      List.replicate 50 'x' ++ ['.', '.', '.'] ∧
    (shortDescription (List.replicate 60 'x')).length = 53 ∧
    panelBoundDescription (List.replicate 60 'x') = List.replicate 60 'x' := by
  have h := description_truncation (List.replicate 60 'x')
  have h2 := h.2.1 (by decide)
  exact ⟨h2.1.trans (by decide), h2.2, h.2.2⟩

/-- C4: rebinding is idempotent for click handlers.  Binding the
thumbnail click handler twice on the same fresh element (handlers `a`
then `b`) leaves exactly the second handler attached — the previously
attached handler, keyed by the private marker, is removed first — so one
click dispatch invokes exactly one callback. -/
theorem idempotent_rebinding (a b : Nat) :
    bindClick (bindClick pristineThumb a) b = ⟨[b], some b⟩ ∧
    dispatchClickCount (bindClick (bindClick pristineThumb a) b) = 1 := by
  constructor
  · simp [bindClick, pristineThumb]
  · simp [bindClick, pristineThumb, dispatchClickCount]

/-- C5 counterexample: `bindPanelContent`'s image binding
(galleryContent.js lines 340–345), offered an element that exposes only
a raw `src` setter, assigns nothing at all — it probes only
`setProperties` and logs a warning otherwise — refuting the claim that
every image-binding site falls back to the direct `src` property. -/
theorem capability_fallback_cex :
    (setPanelImage srcOnlyElem ['p']).2 = false ∧
    (setPanelImage srcOnlyElem ['p']).1.srcVal = none := by
  refine ⟨rfl, rfl⟩

/-- C5 (amended): the thumbnail image binder
(`bindGalleryContent.attemptBinding`, galleryContent.js lines 141–158)
probes `setProperties`, then the direct `src` property, then
`setAttribute`, first available mechanism winning, and on an element
exposing only a raw `src` setter it assigns `src` directly with no
exception escaping; `bindPanelContent`'s image binding instead uses only
`setProperties` and assigns nothing to such an element. -/
theorem capability_fallback (e : ImgElem) (src : List Char)
    (h1 : e.hasSetProperties = false) (h2 : e.hasSetAttribute = false)
    (h3 : e.hasSrc = true) :
    setThumbnailImage e src = ({ e with srcVal := some src }, ImgMech.direct) ∧
    (∀ e2 : ImgElem, e2.hasSetProperties = true → e2.setPropertiesThrows = false →
      (setThumbnailImage e2 src).2 = ImgMech.structured) ∧
    (∀ e2 : ImgElem, e2.hasSetProperties = false → e2.hasSrc = true →
      (setThumbnailImage e2 src).2 = ImgMech.direct) ∧
    (∀ e2 : ImgElem, e2.hasSetProperties = false → e2.hasSrc = false →
      e2.hasSetAttribute = true →
      (setThumbnailImage e2 src).2 = ImgMech.attribute) ∧
    setPanelImage e src = (e, false) := by
  refine ⟨?_, ?_, ?_, ?_, ?_⟩
  · simp [setThumbnailImage, h1, h2, h3]
  · intro e2 g1 g2
    simp [setThumbnailImage, g1, g2]
  · intro e2 g1 g2
    simp [setThumbnailImage, g1, g2]
  · intro e2 g1 g2 g3
    simp [setThumbnailImage, g1, g2, g3]
  · simp [setPanelImage, h1]

/-- Witness for C5's amended claim at the concrete src-only mock element. -/
theorem capability_fallback_witness :
    setThumbnailImage srcOnlyElem ['p'] =
      ({ srcOnlyElem with srcVal := some ['p'] }, ImgMech.direct) ∧
    setPanelImage srcOnlyElem ['p'] = (srcOnlyElem, false) := by
  have h := capability_fallback srcOnlyElem ['p'] rfl rfl rfl
  exact ⟨h.1, h.2.2.2.2⟩

/-- C6: for a slideshow over `[x, y, z]`, setup first sets the element's
source to `x`, and after 4 timer firings the observed source sequence is
`x, y, z, x, y` — one initial set plus four cycles — with the index
advancing as `(i + 1) % length`, wrapping from unreduced index 3 back
to 0 (index trace 0, 1, 2, 0, 1). -/
theorem slideshow_cycling (x y z : List Char) :
    slideshowRun [x, y, z] 0 = (0, [x]) ∧
    slideshowRun [x, y, z] 4 = (1, [x, y, z, x, y]) ∧
    (slideshowRun [x, y, z] 3).1 = (2 + 1) % 3 := by
  refine ⟨rfl, by simp [slideshowRun], by simp [slideshowRun]⟩

/-- What `disposeObject3D` does to a render object that is attached
(has a parent) and has never been detached. -/
theorem disposeObject3D_detach (sceneId : Nat) (o : Object3D) (p : Nat)
    (hp : o.parent = some p) (hc : o.detachCount = 0) :
    (disposeObject3D sceneId o).detachCount = 1 ∧
    (disposeObject3D sceneId o).parent = none ∧
    (o.hasDisposeMethod = true →
      (disposeObject3D sceneId o).resourcesDisposed = true) := by
  simp only [disposeObject3D, hp, hc]
  cases h : o.hasDisposeMethod <;> simp [h]

/-- C7: after `BaseScene.dispose()` the tracked-entity list is empty,
and every previously tracked entity has had its `object3D`
back-reference nulled, its `destroy` hook invoked when it exposes one,
and — when it held an attached, never-detached render object — that
object detached from the scene graph exactly once (the later
`world.scene.remove` finds it already parentless and is a no-op) with
its owned render resources released when it exposes `dispose()`. -/
theorem disposal_completeness (sc : Scene) :
    (disposeScene sc).1.entities = [] ∧
    (disposeScene sc).2 = sc.entities.map (disposeEntity sc.worldSceneId) ∧
    ∀ e ∈ sc.entities,
      (disposeEntity sc.worldSceneId e).1.object3D = none ∧
      (e.hasDestroyMethod = true →
        (disposeEntity sc.worldSceneId e).1.destroyCalled = true) ∧
      ∀ o, e.object3D = some o → o.detachCount = 0 → o.parent.isSome →
        ∃ o2, (disposeEntity sc.worldSceneId e).2 = some o2 ∧
          o2.detachCount = 1 ∧ o2.parent = none ∧
          (o.hasDisposeMethod = true → o2.resourcesDisposed = true) := by
  refine ⟨rfl, rfl, ?_⟩
  intro e _
  refine ⟨?_, ?_, ?_⟩
  · cases ho : e.object3D <;> simp only [disposeEntity, ho] <;> split <;>
      simp [ho]
  · intro hd
    cases ho : e.object3D <;> simp [disposeEntity, ho, hd]
  · intro o ho hc hps
    obtain ⟨p, hp⟩ := Option.isSome_iff_exists.mp hps
    have hspec := disposeObject3D_detach sc.worldSceneId o p hp hc
    refine ⟨disposeObject3D sc.worldSceneId o, ?_, hspec.1, hspec.2.1, hspec.2.2⟩
    simp [disposeEntity, ho]

/-- Witness for C7: a one-entity scene whose entity is parented to the
world scene (id 7), has resources and a destroy hook. -/
theorem disposal_completeness_witness :
    (disposeScene ⟨7, [⟨some ⟨some 7, 0, true, false⟩, true, false⟩]⟩).1.entities = [] ∧
    (disposeEntity 7 ⟨some ⟨some 7, 0, true, false⟩, true, false⟩).1.object3D = none ∧
    (disposeEntity 7 ⟨some ⟨some 7, 0, true, false⟩, true, false⟩).1.destroyCalled = true ∧
    ∃ o2, (disposeEntity 7 ⟨some ⟨some 7, 0, true, false⟩, true, false⟩).2 = some o2 ∧
      o2.detachCount = 1 ∧ o2.parent = none ∧ o2.resourcesDisposed = true := by
  have h := disposal_completeness ⟨7, [⟨some ⟨some 7, 0, true, false⟩, true, false⟩]⟩
  have he := h.2.2 ⟨some ⟨some 7, 0, true, false⟩, true, false⟩ (by simp)
  obtain ⟨o2, h1, h2, h3, h4⟩ := he.2.2 ⟨some 7, 0, true, false⟩ rfl rfl rfl
  exact ⟨h.1, he.1, he.2.1 rfl, o2, h1, h2, h3, h4 rfl⟩

/-- C8: item `i` of `n` items with spacing `s` is placed at
`-((n - 1) * s) / 2 + i * s` (symmetric centring, with the `n = 1`
special case of the code agreeing with the formula); for 3 items with
spacing 2 the offsets are exactly `[-2, 0, 2]`, and for 1 item `[0]`. -/
theorem centered_offsets (n : Nat) (s : ℚ) (i : Nat) (hn : 1 ≤ n) :
    itemOffset n s i = -(((n : ℚ) - 1) * s) / 2 + (i : ℚ) * s ∧
    itemOffsets 3 2 = [-2, 0, 2] ∧
    itemOffsets 1 s = [0] := by
  refine ⟨?_, ?_, ?_⟩
  · rcases Nat.lt_or_ge 1 n with hlt | hle
    · rw [itemOffset]
      simp [hlt]
    · have h1 : n = 1 := by omega
      subst h1
      rw [itemOffset]
      norm_num
  · rw [itemOffsets]
    simp [List.range_succ, itemOffset]
    norm_num
  · rw [itemOffsets]
    simp [List.range_succ, itemOffset]

/-- Witness for C8 at 3 items, spacing 2, item 1. -/
theorem centered_offsets_witness :
    itemOffset 3 2 1 = -(((3 : ℚ) - 1) * 2) / 2 + (1 : ℚ) * 2 ∧
    itemOffsets 3 2 = [-2, 0, 2] ∧
    itemOffsets 1 2 = [0] := by
  have h := centered_offsets 3 2 1 (by omega)
  exact ⟨by rw [h.1]; norm_num, h.2.1, h.2.2⟩

/-- C9: `stopSlideshow` invokes the stored cleanup closure when one is
present (clearing the still-running interval) and removes the stored
reference; when no slideshow is active on the entity it is a no-op —
the entity's state is unchanged (and the function is total, so nothing
is thrown). -/
theorem stop_slideshow_spec (e : SlideshowEntity) :
    (e.cleanupStored = none → stopSlideshow e = e) ∧
    ∀ b, e.cleanupStored = some b →
      (stopSlideshow e).cleanupInvoked = e.cleanupInvoked + 1 ∧
      (stopSlideshow e).cleanupStored = none ∧
      (b = true → (stopSlideshow e).intervalRunning = false) := by
  constructor
  · intro h
    simp [stopSlideshow, h]
  · intro b hb
    refine ⟨?_, ?_, ?_⟩
    · simp [stopSlideshow, hb]
    · simp [stopSlideshow, hb]
    · intro hb2
      subst hb2
      simp [stopSlideshow, hb]

/-- Witness for C9: a no-op on an entity with no stored cleanup, and a
full stop on an entity with a stored cleanup over a running interval. -/
theorem stop_slideshow_witness :
    stopSlideshow ⟨none, false, 0⟩ = ⟨none, false, 0⟩ ∧
    (stopSlideshow ⟨some true, true, 0⟩).cleanupInvoked = 1 ∧
    (stopSlideshow ⟨some true, true, 0⟩).cleanupStored = none ∧
    (stopSlideshow ⟨some true, true, 0⟩).intervalRunning = false := by
  have h1 := (stop_slideshow_spec ⟨none, false, 0⟩).1 rfl
  have h2 := (stop_slideshow_spec ⟨some true, true, 0⟩).2 true rfl
  exact ⟨h1, h2.1, h2.2.1, h2.2.2 rfl⟩

/-- C10: `GalleryScene.renderPanels` creates and content-binds at most 2
panel entities: exactly `min (panels.length) 2` are rendered, the output
depends only on the first two input panels (anything beyond is silently
dropped regardless of input length), and with 2 or more input panels
exactly 2 are rendered. -/
theorem panel_cap (panels : List PanelData) :
    (renderPanels panels).length = min panels.length 2 ∧
    (renderPanels panels).length ≤ 2 ∧
    renderPanels panels = renderPanels (panels.take 2) ∧
    (2 ≤ panels.length → (renderPanels panels).length = 2) := by
  have hlen : (renderPanels panels).length = min panels.length 2 := by
    simp [renderPanels, displayPanels]
    omega
  refine ⟨hlen, by omega, ?_, fun h => by omega⟩
  simp [renderPanels, displayPanels, List.take_take]

/-- Witness for C10 at a concrete 3-panel input. -/
theorem panel_cap_witness :
    (renderPanels [⟨['t'], none, none, none, none⟩,
      ⟨['u'], none, none, none, none⟩,
      ⟨['v'], none, none, none, none⟩]).length = 2 := by
  have h := panel_cap [⟨['t'], none, none, none, none⟩,
    ⟨['u'], none, none, none, none⟩,
    ⟨['v'], none, none, none, none⟩]
  exact h.2.2.2 (by simp)

end Showcase
